import Mathlib

/-!
Shallow embedding of `src/app.py` (tbr_api): a Flask service over a pandas
DataFrame loaded once from a CSV file.  Cell values are modelled as text
(the service compares and returns them as text; `astype(str)` renders any
cell as text).  Randomness (`df.sample(1)`) is modelled by an explicit index
argument `k`: the sampled row is the one at position `k mod length`, so
every theorem quantifies over all possible draws.  A request handler that
can raise a Python `KeyError` is embedded in `Except String`.
-/

deriving instance DecidableEq for Except

namespace TbrApi

/-- The required column names checked by `load_books` (`required_cols`). -/
def requiredCols : List String :=
  ["title", "author", "genre", "mood_tag", "energy", "notes"]

/-- Python `str.lower()`, modelled on the character data (case folding per
character). -/
def strLower (s : String) : String := ⟨s.data.map Char.toLower⟩

/-- Python `str.strip()`: drop whitespace from both ends. -/
def strTrim (s : String) : String :=
  ⟨((s.data.dropWhile (fun c => c.isWhitespace)).reverse.dropWhile
      (fun c => c.isWhitespace)).reverse⟩

/-- Column-name normalization applied by `load_books`: `c.strip().lower()`. -/
def normName (c : String) : String := strLower (strTrim c)

/-- One row of the DataFrame: the assignment of column names to cell text. -/
abbrev Row : Type := List (String × String)

/-- Cell lookup on a row, `row[c]` when the key may be absent. -/
def rowGet? (r : Row) (c : String) : Option String :=
  (r.find? (fun p => p.1 == c)).map (fun p => p.2)

/-- `book[c]` in the route handlers: raises `KeyError` when the key is absent. -/
def rowGet (r : Row) (c : String) : Except String String :=
  match rowGet? r c with
  | some v => Except.ok v
  | none => Except.error "KeyError"

/-- The in-memory table: normalized column names plus the data rows. -/
structure DataFrame where
  columns : List String
  rows : List Row
deriving DecidableEq

/-- A parsed CSV input file: the header line and the data lines. -/
structure Csv where
  header : List String
  data : List (List String)

/-- pandas pads a short data line with NaN cells so the frame stays
rectangular; after `astype(str)` a NaN cell reads as the text "nan". -/
def padTo (n : Nat) (cells : List String) : List String :=
  cells ++ List.replicate (n - cells.length) "nan"

/-- `load_books()`: normalize the column names, fail if any required column
is missing, otherwise build the table. -/
def load_books (csv : Csv) : Except String DataFrame :=
  let cols := csv.header.map normName
  let missing := requiredCols.filter (fun c => ! cols.contains c)
  if missing.isEmpty then
    Except.ok ⟨cols, csv.data.map (fun cells => cols.zip (padTo cols.length cells))⟩
  else
    Except.error "CSV missing columns"

/-- `df.sample(1).iloc[0]` on a nonempty list of rows: the row at the drawn
index `k mod length`. -/
def sample1 (r : Row) (rs : List Row) (k : Nat) : Row :=
  (r :: rs).get ⟨k % (r :: rs).length, Nat.mod_lt _ (Nat.succ_pos _)⟩

/-- `pick_random(df)`: `None` on an empty table, else a sampled row. -/
def pick_random (df : DataFrame) (k : Nat) : Option Row :=
  match df.rows with
  | [] => none
  | r :: rs => some (sample1 r rs k)

/-- The Boolean mask `df["mood_tag"].astype(str).str.lower() == mood_tag.lower()`
evaluated at one row. -/
def moodMatches (tag : String) (r : Row) : Bool :=
  strLower ((rowGet? r "mood_tag").getD "nan") == strLower tag

/-- `pick_by_mood(df, mood_tag)`: filter the rows by the case-folded mask and
sample the subset; `df["mood_tag"]` raises `KeyError` when the column is
absent from the frame. -/
def pick_by_mood (df : DataFrame) (tag : String) (k : Nat) :
    Except String (Option Row) :=
  if df.columns.contains "mood_tag" then
    match df.rows.filter (moodMatches tag) with
    | [] => Except.ok none
    | r :: rs => Except.ok (some (sample1 r rs k))
  else
    Except.error "KeyError"

/-- A JSON object body, as an association list of string fields. -/
abbrev Body := List (String × String)

/-- The JSON dict built by `/random` and `/mood` for a chosen book: the six
fields, with `mood` sourced from the row's `mood_tag` cell. -/
def bookBody (book : Row) : Except String Body :=
  match rowGet book "title", rowGet book "author", rowGet book "genre",
      rowGet book "mood_tag", rowGet book "energy", rowGet book "notes" with
  | Except.ok t, Except.ok a, Except.ok g, Except.ok m, Except.ok e, Except.ok n =>
    Except.ok [("title", t), ("author", a), ("genre", g),
               ("mood", m), ("energy", e), ("notes", n)]
  | _, _, _, _, _, _ => Except.error "KeyError"

/-- `GET /`: the health route. -/
def health : Nat × Body := (200, [("status", "ok")])

/-- `GET /random` (`random_book`): status code and JSON body. -/
def random_book (df : DataFrame) (k : Nat) : Except String (Nat × Body) :=
  match pick_random df k with
  | none => Except.ok (404, [("error", "no_books")])
  | some book => (bookBody book).map (fun b => (200, b))

/-- `GET /mood` (`mood_book`); `tag?` is `request.args.get("tag")`, `none`
when the query parameter is absent.  `if not mood` is true for both an
absent parameter and the empty string. -/
def mood_book (df : DataFrame) (tag? : Option String) (k : Nat) :
    Except String (Nat × Body) :=
  match tag? with
  | none => Except.ok (400, [("error", "missing_tag_param")])
  | some mood =>
    if mood = "" then Except.ok (400, [("error", "missing_tag_param")])
    else
      match pick_by_mood df mood k with
      | Except.error e => Except.error e
      | Except.ok none => Except.ok (404, [("error", "no_books_for_mood")])
      | Except.ok (some book) => (bookBody book).map (fun b => (200, b))

/-- The three routes the app exposes. -/
inductive Request where
  | health
  | random
  | mood (tag? : Option String)
deriving DecidableEq

/-- Serving one request against the module-level table `BOOKS_DF`: the
handler computes a response from the table; the handlers never rebind the
table, and pandas mask indexing, `sample` and `iloc` all build new objects,
so the table left for the next request is the one that was there. -/
def handle (df : DataFrame) (rq : Request) (k : Nat) :
    Except String (Nat × Body) × DataFrame :=
  match rq with
  | Request.health => (Except.ok health, df)
  | Request.random => (random_book df k, df)
  | Request.mood t => (mood_book df t k, df)

/-- Serving a whole sequence of requests, threading the table state. -/
def serve (df : DataFrame) : List (Request × Nat) → DataFrame
  | [] => df
  | q :: qs => serve (handle df q.1 q.2).2 qs

/-- A row has all six required cells (load-time shape of every row). -/
def rowHasCols (r : Row) : Bool :=
  requiredCols.all (fun c => (rowGet? r c).isSome)

/-- The cell of a row under a column, for stating response bodies. -/
def cell (r : Row) (c : String) : String := (rowGet? r c).getD ""

/-- The six-field response body of a chosen row, `mood` renamed from
`mood_tag`. -/
def sixBody (r : Row) : Body :=
  [("title", cell r "title"), ("author", cell r "author"),
   ("genre", cell r "genre"), ("mood", cell r "mood_tag"),
   ("energy", cell r "energy"), ("notes", cell r "notes")]

/-- Concrete one-row dataset used to instantiate the theorems. -/
def rowDune : Row :=
  [("title", "Dune"), ("author", "Herbert"), ("genre", "SciFi"),
   ("mood_tag", "Epic"), ("energy", "High"), ("notes", "Classic")]

/-- Concrete one-row table. -/
def dfEx : DataFrame := ⟨requiredCols, [rowDune]⟩

/-- Concrete CSV input whose load yields `dfEx`. -/
def csvEx : Csv :=
  ⟨["title", "author", "genre", "mood_tag", "energy", "notes"],
   [["Dune", "Herbert", "SciFi", "Epic", "High", "Classic"]]⟩

/-- The response body for `rowDune`. -/
def bodyDune : Body :=
  [("title", "Dune"), ("author", "Herbert"), ("genre", "SciFi"),
   ("mood", "Epic"), ("energy", "High"), ("notes", "Classic")]

example : load_books csvEx = Except.ok dfEx := by decide
example : pick_random dfEx 0 = some rowDune := by decide
example : pick_by_mood dfEx "EPIC" 0 = Except.ok (some rowDune) := by decide
example : pick_by_mood dfEx "angry" 3 = Except.ok none := by decide
example : random_book dfEx 0 = Except.ok (200, bodyDune) := by decide
example : mood_book dfEx (some "EPIC") 0 = Except.ok (200, bodyDune) := by decide
example : mood_book dfEx none 0 = Except.ok (400, [("error", "missing_tag_param")]) := by decide
example : mood_book dfEx (some "") 0 = Except.ok (400, [("error", "missing_tag_param")]) := by decide
example : sixBody rowDune = bodyDune := by decide
example : strLower "Happy" = strLower "HAPPY" := by decide
example : normName " Title " = "title" := by decide

/-! ### Helper lemmas -/

lemma sample1_mem (r : Row) (rs : List Row) (k : Nat) : sample1 r rs k ∈ r :: rs :=
  List.get_mem _ _ _

lemma pick_random_mem (df : DataFrame) (k : Nat) (r : Row)
    (h : pick_random df k = some r) : r ∈ df.rows := by
  cases hrows : df.rows with
  | nil => simp [pick_random, hrows] at h
  | cons a as =>
    simp only [pick_random, hrows, Option.some.injEq] at h
    rw [← h]
    exact sample1_mem a as k

lemma pick_by_mood_eq_none_iff (df : DataFrame) (tag : String) (k : Nat)
    (hcol : df.columns.contains "mood_tag" = true) :
    pick_by_mood df tag k = Except.ok none ↔
      df.rows.filter (moodMatches tag) = [] := by
  simp only [pick_by_mood, hcol, if_true]
  cases hf : df.rows.filter (moodMatches tag) with
  | nil => simp
  | cons a as => simp

lemma pick_by_mood_mem (df : DataFrame) (tag : String) (k : Nat) (r : Row)
    (h : pick_by_mood df tag k = Except.ok (some r)) :
    r ∈ df.rows ∧ moodMatches tag r = true := by
  by_cases hcol : df.columns.contains "mood_tag" = true
  · simp only [pick_by_mood, hcol, if_true] at h
    cases hf : df.rows.filter (moodMatches tag) with
    | nil => rw [hf] at h; simp at h
    | cons a as =>
      rw [hf] at h
      simp only [Except.ok.injEq, Option.some.injEq] at h
      have hmem : r ∈ df.rows.filter (moodMatches tag) := by
        rw [hf, ← h]
        exact sample1_mem a as k
      exact List.mem_filter.mp hmem
  · simp only [Bool.not_eq_true] at hcol
    have hns : ¬ ("mood_tag" ∈ df.columns) := by simpa using hcol
    simp [pick_by_mood, hns] at h

lemma bookBody_eq (r : Row) (h : rowHasCols r = true) :
    bookBody r = Except.ok (sixBody r) := by
  rw [rowHasCols] at h
  have hs := List.all_eq_true.mp h
  obtain ⟨t, ht⟩ := Option.isSome_iff_exists.mp (hs "title" (by decide))
  obtain ⟨a, ha⟩ := Option.isSome_iff_exists.mp (hs "author" (by decide))
  obtain ⟨g, hg⟩ := Option.isSome_iff_exists.mp (hs "genre" (by decide))
  obtain ⟨m, hm⟩ := Option.isSome_iff_exists.mp (hs "mood_tag" (by decide))
  obtain ⟨e, he⟩ := Option.isSome_iff_exists.mp (hs "energy" (by decide))
  obtain ⟨n, hn⟩ := Option.isSome_iff_exists.mp (hs "notes" (by decide))
  simp [bookBody, rowGet, sixBody, cell, ht, ha, hg, hm, he, hn]

lemma bookBody_ok (book : Row) (b : Body) (hb : bookBody book = Except.ok b) :
    ∃ t a g m e n, rowGet? book "title" = some t ∧ rowGet? book "author" = some a ∧
      rowGet? book "genre" = some g ∧ rowGet? book "mood_tag" = some m ∧
      rowGet? book "energy" = some e ∧ rowGet? book "notes" = some n ∧
      b = [("title", t), ("author", a), ("genre", g), ("mood", m),
           ("energy", e), ("notes", n)] := by
  rcases hT : rowGet? book "title" with _ | t <;>
  rcases hA : rowGet? book "author" with _ | a <;>
  rcases hG : rowGet? book "genre" with _ | g <;>
  rcases hM : rowGet? book "mood_tag" with _ | m <;>
  rcases hE : rowGet? book "energy" with _ | e <;>
  rcases hN : rowGet? book "notes" with _ | n <;>
    simp only [bookBody, rowGet, hT, hA, hG, hM, hE, hN, Except.ok.injEq] at hb <;>
    first
      | exact Except.noConfusion hb
      | exact ⟨t, a, g, m, e, n, rfl, rfl, rfl, rfl, rfl, rfl, hb.symm⟩

lemma rowGet?_isSome_iff (r : Row) (c : String) :
    (rowGet? r c).isSome = true ↔ c ∈ r.map Prod.fst := by
  simp [rowGet?, Option.isSome_map', List.find?_isSome, List.mem_map]

lemma padTo_le_length (n : Nat) (cells : List String) :
    n ≤ (padTo n cells).length := by
  simp [padTo]
  omega

lemma zip_row_hasCols (cols cells : List String)
    (hreq : ∀ c ∈ requiredCols, c ∈ cols) :
    rowHasCols (cols.zip (padTo cols.length cells)) = true := by
  rw [rowHasCols, List.all_eq_true]
  intro c hc
  rw [rowGet?_isSome_iff, List.map_fst_zip _ _ (padTo_le_length _ _)]
  exact hreq c hc

lemma load_ok_inv (csv : Csv) (df : DataFrame) (h : load_books csv = Except.ok df) :
    df.columns.contains "mood_tag" = true ∧ ∀ r ∈ df.rows, rowHasCols r = true := by
  by_cases hc : (requiredCols.filter
      (fun c => ! (csv.header.map normName).contains c)).isEmpty = true
  · have hdf : df = ⟨csv.header.map normName, csv.data.map (fun cells =>
        (csv.header.map normName).zip
          (padTo (csv.header.map normName).length cells))⟩ := by
      simp only [load_books] at h
      rw [if_pos hc] at h
      exact (Except.ok.inj h).symm
    have hall : ∀ c ∈ requiredCols, c ∈ csv.header.map normName := by
      rw [List.isEmpty_iff, List.filter_eq_nil_iff] at hc
      intro c hcc
      simpa using hc c hcc
    subst hdf
    refine ⟨by simpa using hall "mood_tag" (by decide), ?_⟩
    intro r hr
    simp only [List.mem_map] at hr
    obtain ⟨cells, _, hcells⟩ := hr
    rw [← hcells]
    exact zip_row_hasCols _ cells hall
  · rw [Bool.not_eq_true] at hc
    simp only [load_books, hc, Bool.false_eq_true, if_false] at h
    exact absurd h (by simp)

/-! ### Claim theorems -/

/-- C1: for a table carrying the `mood_tag` column, `pick_by_mood` returns
`None` exactly when no row's `mood_tag` cell, rendered as text, equals the
tag after case folding; any returned row belongs to the case-insensitively
matching subset.  Matching is exact string equality after case folding. -/
theorem pick_by_mood_spec (df : DataFrame) (tag : String) (k : Nat)
    (hcol : df.columns.contains "mood_tag" = true) :
    (pick_by_mood df tag k = Except.ok none ↔
      ∀ r ∈ df.rows, ¬ strLower ((rowGet? r "mood_tag").getD "nan") = strLower tag) ∧
    (∀ r, pick_by_mood df tag k = Except.ok (some r) →
      r ∈ df.rows ∧ strLower ((rowGet? r "mood_tag").getD "nan") = strLower tag) := by
  constructor
  · rw [pick_by_mood_eq_none_iff df tag k hcol, List.filter_eq_nil_iff]
    simp [moodMatches]
  · intro r h
    have hm := pick_by_mood_mem df tag k r h
    refine ⟨hm.1, ?_⟩
    have := hm.2
    rw [moodMatches] at this
    exact beq_iff_eq.mp this

/-- Witness for C1 at the one-row table and the tag "EPIC". -/
theorem pick_by_mood_spec_witness :
    (pick_by_mood dfEx "EPIC" 0 = Except.ok none ↔
      ∀ r ∈ dfEx.rows, ¬ strLower ((rowGet? r "mood_tag").getD "nan") = strLower "EPIC") ∧
    (∀ r, pick_by_mood dfEx "EPIC" 0 = Except.ok (some r) →
      r ∈ dfEx.rows ∧ strLower ((rowGet? r "mood_tag").getD "nan") = strLower "EPIC") :=
  pick_by_mood_spec dfEx "EPIC" 0 (by decide)

/-- C2: `pick_random` returns `None` exactly when the table has zero rows,
and on a non-empty table any returned row is a member of the table. -/
theorem pick_random_spec (df : DataFrame) (k : Nat) :
    (pick_random df k = none ↔ df.rows = []) ∧
    (∀ r, pick_random df k = some r → r ∈ df.rows) := by
  constructor
  · cases hrows : df.rows with
    | nil => simp [pick_random, hrows]
    | cons a as => simp [pick_random, hrows]
  · exact fun r h => pick_random_mem df k r h

/-- C7: two tags that agree after case folding give `pick_by_mood` the
identical candidate subset, hence the same possible results at every draw. -/
theorem pick_by_mood_case_insensitive (df : DataFrame) (tag1 tag2 : String)
    (h : strLower tag1 = strLower tag2) :
    df.rows.filter (moodMatches tag1) = df.rows.filter (moodMatches tag2) ∧
    ∀ k, pick_by_mood df tag1 k = pick_by_mood df tag2 k := by
  have hm : moodMatches tag1 = moodMatches tag2 := by
    funext r
    rw [moodMatches, moodMatches, h]
  exact ⟨by rw [hm], fun k => by simp only [pick_by_mood, hm]⟩

/-- Witness for C7 at the tags "Happy" and "HAPPY". -/
theorem pick_by_mood_case_insensitive_witness :
    dfEx.rows.filter (moodMatches "Happy") = dfEx.rows.filter (moodMatches "HAPPY") ∧
    ∀ k, pick_by_mood dfEx "Happy" k = pick_by_mood dfEx "HAPPY" k :=
  pick_by_mood_case_insensitive dfEx "Happy" "HAPPY" (by decide)

/-- C3: loading succeeds exactly when, after trimming and lowercasing every
column name, all six required names are present; otherwise it fails with an
error (raised before the app object starts serving). -/
theorem load_books_spec (csv : Csv) :
    (∃ df, load_books csv = Except.ok df) ↔
      ∀ c ∈ requiredCols, c ∈ csv.header.map normName := by
  have hcond :
      (requiredCols.filter
          (fun c => ! (csv.header.map normName).contains c)).isEmpty = true
        ↔ ∀ c ∈ requiredCols, c ∈ csv.header.map normName := by
    rw [List.isEmpty_iff, List.filter_eq_nil_iff]
    simp
  constructor
  · rintro ⟨df, hdf⟩
    rw [← hcond]
    by_contra hne
    rw [Bool.not_eq_true] at hne
    simp only [load_books, hne, Bool.false_eq_true, if_false] at hdf
    exact absurd hdf (by simp)
  · intro hall
    have hc := hcond.mpr hall
    refine ⟨⟨csv.header.map normName,
        csv.data.map (fun cells => (csv.header.map normName).zip
          (padTo (csv.header.map normName).length cells))⟩, ?_⟩
    simp only [load_books]
    rw [if_pos hc]

/-- C4: a `/mood` request with the tag parameter absent or empty answers
400 with the `missing_tag_param` error body, for every table and every
draw — in particular the result never depends on the table, so the
selector is not consulted. -/
theorem mood_book_missing_tag (df : DataFrame) (k : Nat) :
    mood_book df none k = Except.ok (400, [("error", "missing_tag_param")]) ∧
    mood_book df (some "") k = Except.ok (400, [("error", "missing_tag_param")]) :=
  ⟨rfl, rfl⟩

/-- C8: the selectors and handlers are pure with respect to the table:
serving any request, and any sequence of requests, leaves the table
exactly as it was after load. -/
theorem handlers_pure (df : DataFrame) :
    (∀ rq k, (handle df rq k).2 = df) ∧ (∀ qs, serve df qs = df) := by
  have h1 : ∀ rq k, (handle df rq k).2 = df := by
    intro rq k
    cases rq <;> rfl
  refine ⟨h1, ?_⟩
  intro qs
  induction qs with
  | nil => rfl
  | cons q qs ih =>
    show serve (handle df q.1 q.2).2 qs = df
    rw [h1]
    exact ih

/-- C5: on a table whose rows all carry the six required cells, `/random`
answers 404 with the `no_books` body when the table is empty, and otherwise
200 with exactly the six keys title, author, genre, mood, energy, notes of
one row of the table, `mood` sourced from that row's `mood_tag` cell. -/
theorem random_book_spec (df : DataFrame) (k : Nat)
    (hwf : ∀ r ∈ df.rows, rowHasCols r = true) :
    (df.rows = [] → random_book df k = Except.ok (404, [("error", "no_books")])) ∧
    (df.rows ≠ [] → ∃ r ∈ df.rows, random_book df k = Except.ok (200, sixBody r)) := by
  constructor
  · intro hnil
    simp [random_book, pick_random, hnil]
  · intro hne
    cases hrows : df.rows with
    | nil => exact absurd hrows hne
    | cons a as =>
      have hmem : sample1 a as k ∈ df.rows := by
        rw [hrows]
        exact sample1_mem a as k
      refine ⟨sample1 a as k, sample1_mem a as k, ?_⟩
      have hbb := bookBody_eq _ (hwf _ hmem)
      simp [random_book, pick_random, hrows, hbb, Except.map]

/-- Witness for C5 at the one-row table. -/
theorem random_book_spec_witness :
    (dfEx.rows = [] → random_book dfEx 0 = Except.ok (404, [("error", "no_books")])) ∧
    (dfEx.rows ≠ [] → ∃ r ∈ dfEx.rows, random_book dfEx 0 = Except.ok (200, sixBody r)) :=
  random_book_spec dfEx 0 (by decide)

/-- C6: on a table with the `mood_tag` column and well-shaped rows, `/mood`
with a non-empty tag answers 404 with the `no_books_for_mood` body when no
row's `mood_tag` case-insensitively equals the tag, and otherwise 200 with
the same six-key body shape as `/random` built from a matching row. -/
theorem mood_book_spec (df : DataFrame) (tag : String) (k : Nat)
    (hcol : df.columns.contains "mood_tag" = true)
    (hwf : ∀ r ∈ df.rows, rowHasCols r = true)
    (htag : tag ≠ "") :
    ((∀ r ∈ df.rows, ¬ strLower ((rowGet? r "mood_tag").getD "nan") = strLower tag) →
        mood_book df (some tag) k = Except.ok (404, [("error", "no_books_for_mood")])) ∧
    ((∃ r ∈ df.rows, strLower ((rowGet? r "mood_tag").getD "nan") = strLower tag) →
        ∃ r ∈ df.rows, strLower ((rowGet? r "mood_tag").getD "nan") = strLower tag ∧
          mood_book df (some tag) k = Except.ok (200, sixBody r)) := by
  have hcolm : "mood_tag" ∈ df.columns := by simpa using hcol
  constructor
  · intro hnone
    have hf : df.rows.filter (moodMatches tag) = [] := by
      rw [List.filter_eq_nil_iff]
      intro a ha
      simp only [moodMatches, beq_iff_eq]
      exact fun hc => hnone a ha hc
    simp [mood_book, htag, pick_by_mood, hcolm, hf]
  · rintro ⟨r0, hr0, hm0⟩
    cases hf : df.rows.filter (moodMatches tag) with
    | nil =>
      exfalso
      rw [List.filter_eq_nil_iff] at hf
      exact hf r0 hr0 (by simp [moodMatches, hm0])
    | cons a as =>
      have hmem : sample1 a as k ∈ df.rows.filter (moodMatches tag) := by
        rw [hf]
        exact sample1_mem a as k
      have hmf := List.mem_filter.mp hmem
      refine ⟨sample1 a as k, hmf.1, ?_, ?_⟩
      · have hmm := hmf.2
        rw [moodMatches] at hmm
        exact beq_iff_eq.mp hmm
      · have hbb := bookBody_eq _ (hwf _ hmf.1)
        simp [mood_book, htag, pick_by_mood, hcolm, hf, hbb, Except.map]

/-- Witness for C6 at the one-row table and the tag "EPIC". -/
theorem mood_book_spec_witness :
    ((∀ r ∈ dfEx.rows, ¬ strLower ((rowGet? r "mood_tag").getD "nan") = strLower "EPIC") →
        mood_book dfEx (some "EPIC") 0 = Except.ok (404, [("error", "no_books_for_mood")])) ∧
    ((∃ r ∈ dfEx.rows, strLower ((rowGet? r "mood_tag").getD "nan") = strLower "EPIC") →
        ∃ r ∈ dfEx.rows, strLower ((rowGet? r "mood_tag").getD "nan") = strLower "EPIC" ∧
          mood_book dfEx (some "EPIC") 0 = Except.ok (200, sixBody r)) :=
  mood_book_spec dfEx "EPIC" 0 (by decide) (by decide) (by decide)

/-- C9: every 200 answer of `/mood` carries, under the `mood` key, the
matched row's stored `mood_tag` value in its original letter case — not the
caller-supplied tag; when the stored value differs from the tag, the
returned `mood` is not the tag the caller sent. -/
theorem mood_book_mood_field (df : DataFrame) (tag : String) (k : Nat) (body : Body)
    (h : mood_book df (some tag) k = Except.ok (200, body)) :
    ∃ r ∈ df.rows, ∃ m, rowGet? r "mood_tag" = some m ∧
      strLower m = strLower tag ∧
      body.lookup "mood" = some m ∧
      (m ≠ tag → body.lookup "mood" ≠ some tag) := by
  by_cases h0 : tag = ""
  · rw [h0] at h
    simp [mood_book] at h
  · cases hp : pick_by_mood df tag k with
    | error e => simp [mood_book, h0, hp] at h
    | ok ro =>
      cases ro with
      | none => simp [mood_book, h0, hp] at h
      | some book =>
        simp only [mood_book, h0, hp] at h
        cases hb : bookBody book with
        | error e => simp [hb, Except.map] at h
        | ok b =>
          simp only [hb, Except.map, if_false, Except.ok.injEq, Prod.mk.injEq,
            true_and] at h
          obtain ⟨t, a, g, m, e, n, _, _, _, hM, _, _, hbody⟩ := bookBody_ok book b hb
          have hmm := pick_by_mood_mem df tag k book hp
          have hmood : strLower m = strLower tag := by
            have := hmm.2
            rw [moodMatches, hM] at this
            simpa using this
          refine ⟨book, hmm.1, m, hM, hmood, ?_, ?_⟩
          · rw [← h, hbody]
            rfl
          · intro hne hcontra
            rw [← h, hbody] at hcontra
            exact hne (Option.some.inj hcontra)

/-- Witness for C9: the stored tag "Epic" is returned for the query "EPIC". -/
theorem mood_book_mood_field_witness :
    ∃ r ∈ dfEx.rows, ∃ m, rowGet? r "mood_tag" = some m ∧
      strLower m = strLower "EPIC" ∧
      bodyDune.lookup "mood" = some m ∧
      (m ≠ "EPIC" → bodyDune.lookup "mood" ≠ some "EPIC") :=
  mood_book_mood_field dfEx "EPIC" 0 bodyDune (by decide)

/-- C10: on any table produced by a successful load, the `mood_tag` column
lookup and the handlers' reads of the six row fields never hit a missing-key
error: every selector call and every request evaluates to a response, not a
`KeyError`, for every tag (the empty table included). -/
theorem load_invariant_no_key_error (csv : Csv) (df : DataFrame)
    (h : load_books csv = Except.ok df) :
    (∀ tag k, ∃ ro, pick_by_mood df tag k = Except.ok ro) ∧
    (∀ k, ∃ resp, random_book df k = Except.ok resp) ∧
    (∀ tag? k, ∃ resp, mood_book df tag? k = Except.ok resp) := by
  obtain ⟨hcol, hwf⟩ := load_ok_inv csv df h
  have hpbm : ∀ tag k, ∃ ro, pick_by_mood df tag k = Except.ok ro := by
    intro tag k
    simp only [pick_by_mood, hcol, if_true]
    cases df.rows.filter (moodMatches tag) with
    | nil => exact ⟨none, rfl⟩
    | cons a as => exact ⟨some (sample1 a as k), rfl⟩
  have hrb : ∀ k, ∃ resp, random_book df k = Except.ok resp := by
    intro k
    cases hpr : pick_random df k with
    | none => exact ⟨(404, [("error", "no_books")]), by simp [random_book, hpr]⟩
    | some book =>
      have hbb := bookBody_eq book (hwf book (pick_random_mem df k book hpr))
      exact ⟨(200, sixBody book), by simp [random_book, hpr, hbb, Except.map]⟩
  refine ⟨hpbm, hrb, ?_⟩
  intro tag? k
  cases tag? with
  | none => exact ⟨_, rfl⟩
  | some mood =>
    by_cases h0 : mood = ""
    · exact ⟨(400, [("error", "missing_tag_param")]), by simp [mood_book, h0]⟩
    · obtain ⟨ro, hro⟩ := hpbm mood k
      cases ro with
      | none =>
        exact ⟨(404, [("error", "no_books_for_mood")]),
          by simp [mood_book, h0, hro]⟩
      | some book =>
        have hmem := (pick_by_mood_mem df mood k book hro).1
        have hbb := bookBody_eq book (hwf book hmem)
        exact ⟨(200, sixBody book), by simp [mood_book, h0, hro, hbb, Except.map]⟩

/-- Witness for C10 at the concrete CSV input and its loaded table. -/
theorem load_invariant_no_key_error_witness :
    (∀ tag k, ∃ ro, pick_by_mood dfEx tag k = Except.ok ro) ∧
    (∀ k, ∃ resp, random_book dfEx k = Except.ok resp) ∧
    (∀ tag? k, ∃ resp, mood_book dfEx tag? k = Except.ok resp) :=
  load_invariant_no_key_error csvEx dfEx (by decide)

end TbrApi
